import Mathlib

/-!
Shallow embedding of the `TicketBooking` Solidity contract
(`contracts/TicketBooking.sol`, Solidity ^0.8.20) together with the state of
its two external collaborators: the TIXCOIN ERC20 payment token and the
ERC721 ownership registry the contract inherits.

Modelling conventions:
* Addresses and uint256 values are `Nat`.  Solidity 0.8 checked arithmetic
  reverts on overflow; the counters and sold counts in this contract only
  ever grow by 1 per call and a revert from overflow is unreachable below
  2^256, so `Nat` without an explicit modulus is faithful for every claim
  below (no claim mentions wrap-around).
* A reverting external call is `Option`/`Except` failure.  EVM semantics
  rolls back every storage write of a reverted transaction, so a failing
  operation returns only the error and the caller keeps the pre-state; the
  `...Tx` runners below make that transaction-level semantics explicit.
* The combined `State` holds the TicketBooking storage, the TIXCOIN balances
  and allowances, and the ERC721 owner map, because the contract observes
  collaborator failures synchronously inside its own atomic step.
-/

namespace TicketBooking

/-- An account or contract address.  `0` is `address(0)`. -/
abbrev Addr := Nat

/-- `struct Event` of TicketBooking.sol (lines 15-22). -/
structure Event where
  name : String
  date : Nat
  price : Nat
  totalTickets : Nat
  soldTickets : Nat
  refundDeadline : Nat
deriving DecidableEq

/-- The all-zero record a Solidity `mapping(uint256 => Event)` returns for a
never-written key. -/
def Event.zero : Event :=
  { name := "", date := 0, price := 0, totalTickets := 0, soldTickets := 0,
    refundDeadline := 0 }

/-- `struct Ticket` of TicketBooking.sol (lines 24-28). -/
structure Ticket where
  eventId : Nat
  owner : Addr
  isCancelled : Bool
deriving DecidableEq

/-- Default value of `mapping(uint256 => Ticket)` for a never-written key. -/
def Ticket.zero : Ticket := { eventId := 0, owner := 0, isCancelled := false }

/-- Point update of a Solidity mapping. -/
def mapSet {α : Type} (f : Nat → α) (k : Nat) (v : α) : Nat → α :=
  fun x => if x = k then v else f x

/-- Point update of the two-key ERC20 allowance mapping. -/
def allowSet (f : Addr → Addr → Nat) (o sp : Addr) (v : Nat) : Addr → Addr → Nat :=
  fun x y => if x = o ∧ y = sp then v else f x y

/-- ERC20 balance movement: debit `f`, credit `t` (in that order, so a
self-transfer is a no-op on a sufficient balance). -/
def moveBal (b : Addr → Nat) (f t amt : Nat) : Addr → Nat :=
  let b1 := mapSet b f (b f - amt)
  mapSet b1 t (b1 t + amt)

/-- Combined storage of TicketBooking (fields `owner`, `eventIdCounter`,
`ticketIdCounter`, `events`, `tickets`, `ownerBookings` of TicketBooking.sol
lines 9-32), of the inherited ERC721 registry (`owners`), and of the TIXCOIN
ERC20 (`balances`, `allowances`).  `self` is `address(this)` of the
TicketBooking contract. -/
structure State where
  owner : Addr
  self : Addr
  eventIdCounter : Nat
  ticketIdCounter : Nat
  events : Nat → Event
  tickets : Nat → Ticket
  ownerBookings : Addr → List Nat
  owners : Nat → Option Addr
  balances : Addr → Nat
  allowances : Addr → Addr → Nat

/-- The spec's error taxonomy (§7), one constructor per revert reason of
TicketBooking.sol; `RegistryFailed` stands for a revert raised inside the
inherited ERC721 mint/burn (no taxonomy name: unreachable from the
contract's guarded call sites). -/
inductive LedgerError where
  | Unauthorized
  | NotFound
  | SoldOut
  | PaymentFailed
  | NotOwner
  | AlreadyCancelled
  | NothingToWithdraw
  | RegistryFailed
deriving DecidableEq

/-- Modelled from the spec: the Payment Token collaborator's
`transfer(to, amount)` (§6), implemented by the repository's TIXCOIN
contract as an unmodified OpenZeppelin ERC20 (library code not under
`src/`): reverts (`none`) on a zero address or on an insufficient sender
balance, otherwise moves `amt` from `f` to `t`. -/
def transfer (s : State) (f t amt : Nat) : Option State :=
  if f = 0 ∨ t = 0 then none
  else if amt ≤ s.balances f then
    some { s with balances := moveBal s.balances f t amt }
  else none

/-- Modelled from the spec: the Payment Token collaborator's
`transferFrom(from, to, amount)` (§6), the OpenZeppelin ERC20 pull:
reverts (`none`) when the allowance granted by `f` to `sp` is below `amt`,
otherwise behaves as `transfer` and additionally spends the allowance.
(The unbounded-allowance shortcut of OpenZeppelin is unreachable in this
`Nat` model: every allowance is a finite number and is spent.) -/
def transferFrom (s : State) (sp f t amt : Nat) : Option State :=
  if amt ≤ s.allowances f sp then
    match transfer s f t amt with
    | none => none
    | some s1 =>
      some { s1 with
        allowances := allowSet s1.allowances f sp (s.allowances f sp - amt) }
  else none

/-- Modelled from the spec: the Ownership Registry's `mint(to, id)` (§6),
the inherited OpenZeppelin ERC721 `_safeMint`: reverts (`none`) on the zero
address or an already existing id, otherwise records `to` as holder. -/
def safeMint (s : State) (dst id : Nat) : Option State :=
  if dst = 0 then none
  else
    match s.owners id with
    | some _ => none
    | none => some { s with owners := mapSet s.owners id (some dst) }

/-- Modelled from the spec: the Ownership Registry's `burn(id)` (§6), the
inherited OpenZeppelin ERC721 `_burn`: reverts (`none`) on a nonexistent
id, otherwise destroys the asset. -/
def burn (s : State) (id : Nat) : Option State :=
  match s.owners id with
  | none => none
  | some _ => some { s with owners := mapSet s.owners id none }

/-- Modelled from the spec: the Ownership Registry's `ownerOf(id)` (§6) as
probed defensively — `none` when the asset does not exist (the ERC721
implementation reverts there). -/
def ownerOf (s : State) (id : Nat) : Option Addr := s.owners id

/-- `_ticketOwnerOf` of TicketBooking.sol (lines 114-120): the try/catch
around `ownerOf` that maps a reverting lookup to `address(0)`. -/
def ticketOwnerOf (s : State) (id : Nat) : Addr := (ownerOf s id).getD 0

/-- `createEvent` of TicketBooking.sol (lines 44-60): `onlyOwner`, then
`eventIdCounter++` and storage of the new record with `soldTickets = 0`.
The Solidity function is declared without a return value, hence the `Unit`
result. -/
def createEvent (s : State) (caller : Addr) (n : String)
    (date price totalTickets refundDeadline : Nat) :
    Except LedgerError (State × Unit) :=
  if caller = s.owner then
    Except.ok ({ s with
      eventIdCounter := s.eventIdCounter + 1,
      events := mapSet s.events (s.eventIdCounter + 1)
        { name := n, date := date, price := price,
          totalTickets := totalTickets, soldTickets := 0,
          refundDeadline := refundDeadline } }, ())
  else Except.error LedgerError.Unauthorized

/-- `withdrawFunds` of TicketBooking.sol (lines 62-66): `onlyOwner`,
`require(balance > 0)`, then a push of the whole custody balance to the
owner.  The code ignores the boolean returned by `transfer`, but the ERC20
signals failure by reverting, which aborts the enclosing call. -/
def withdrawFunds (s : State) (caller : Addr) :
    Except LedgerError (State × Unit) :=
  if caller = s.owner then
    if 0 < s.balances s.self then
      match transfer s s.self s.owner (s.balances s.self) with
      | none => Except.error LedgerError.PaymentFailed
      | some s1 => Except.ok (s1, ())
    else Except.error LedgerError.NothingToWithdraw
  else Except.error LedgerError.Unauthorized

/-- `bookTicket` of TicketBooking.sol (lines 68-82): range check, capacity
check, payment pull, then the five local effects and the mint. -/
def bookTicket (s : State) (caller : Addr) (eventId : Nat) :
    Except LedgerError (State × Unit) :=
  if 0 < eventId ∧ eventId ≤ s.eventIdCounter then
    if (s.events eventId).soldTickets < (s.events eventId).totalTickets then
      match transferFrom s s.self caller s.self (s.events eventId).price with
      | none => Except.error LedgerError.PaymentFailed
      | some s1 =>
        let newTicketId := s1.ticketIdCounter + 1
        let s2 : State := { s1 with
          events := mapSet s1.events eventId
            { s1.events eventId with
              soldTickets := (s1.events eventId).soldTickets + 1 },
          ticketIdCounter := newTicketId,
          tickets := mapSet s1.tickets newTicketId
            { eventId := eventId, owner := caller, isCancelled := false },
          ownerBookings := mapSet s1.ownerBookings caller
            (s1.ownerBookings caller ++ [newTicketId]) }
        match safeMint s2 caller newTicketId with
        | none => Except.error LedgerError.RegistryFailed
        | some s3 => Except.ok (s3, ())
    else Except.error LedgerError.SoldOut
  else Except.error LedgerError.NotFound

/-- The tiered refund of TicketBooking.sol lines 90-96: full `price`
strictly before the owning event's `refundDeadline`, `price / 2` (Nat
division) at or after it.  `now` is `block.timestamp`. -/
def refundAmount (s : State) (now ticketId : Nat) : Nat :=
  let ev := s.events (s.tickets ticketId).eventId
  if now < ev.refundDeadline then ev.price else ev.price / 2

/-- `cancelBooking` of TicketBooking.sol (lines 84-104): live-holder check
via `_ticketOwnerOf`, cancelled-flag check, refund push (only when the
amount is positive), flag set, burn. -/
def cancelBooking (s : State) (caller : Addr) (now ticketId : Nat) :
    Except LedgerError (State × Unit) :=
  if ticketOwnerOf s ticketId = caller then
    if (s.tickets ticketId).isCancelled then
      Except.error LedgerError.AlreadyCancelled
    else
      match (if 0 < refundAmount s now ticketId then
               transfer s s.self caller (refundAmount s now ticketId)
             else some s) with
      | none => Except.error LedgerError.PaymentFailed
      | some s1 =>
        let s2 : State := { s1 with
          tickets := mapSet s1.tickets ticketId
            { s1.tickets ticketId with isCancelled := true } }
        match burn s2 ticketId with
        | none => Except.error LedgerError.RegistryFailed
        | some s3 => Except.ok (s3, ())
  else Except.error LedgerError.NotOwner

/-- `getEventDetails` of TicketBooking.sol (lines 106-108): the raw mapping
read, no existence check. -/
def getEventDetails (s : State) (eventId : Nat) : Event := s.events eventId

/-- `getUserTickets` of TicketBooking.sol (lines 110-112). -/
def getUserTickets (s : State) (user : Addr) : List Nat := s.ownerBookings user

/-- Transaction-level semantics of `createEvent`: a revert leaves the
pre-state. -/
def createEventTx (s : State) (caller : Addr) (n : String)
    (date price totalTickets refundDeadline : Nat) : State :=
  match createEvent s caller n date price totalTickets refundDeadline with
  | Except.ok (s1, _) => s1
  | Except.error _ => s

/-- Transaction-level semantics of `bookTicket`: a revert leaves the
pre-state. -/
def bookTicketTx (s : State) (caller eventId : Nat) : State :=
  match bookTicket s caller eventId with
  | Except.ok (s1, _) => s1
  | Except.error _ => s

/-- Transaction-level semantics of `cancelBooking`: a revert leaves the
pre-state. -/
def cancelBookingTx (s : State) (caller now ticketId : Nat) : State :=
  match cancelBooking s caller now ticketId with
  | Except.ok (s1, _) => s1
  | Except.error _ => s

/-- Transaction-level semantics of `withdrawFunds`: a revert leaves the
pre-state. -/
def withdrawFundsTx (s : State) (caller : Addr) : State :=
  match withdrawFunds s caller with
  | Except.ok (s1, _) => s1
  | Except.error _ => s

/-- The capacity invariant of spec §3: no event oversold. -/
def SoldLeTotal (s : State) : Prop :=
  ∀ e, (s.events e).soldTickets ≤ (s.events e).totalTickets

/-- Not-yet-created event slots hold a zero sold count (true of every state
reachable from deployment, where the `events` mapping beyond
`eventIdCounter` was never written). -/
def FreshSoldZero (s : State) : Prop :=
  ∀ e, s.eventIdCounter < e → (s.events e).soldTickets = 0

/-- Event slots outside `[1, eventIdCounter]` were never written (true of
every state reachable from deployment). -/
def EventsWF (s : State) : Prop :=
  ∀ e, e = 0 ∨ s.eventIdCounter < e → s.events e = Event.zero

/-- One successful mutating operation of the ledger, any caller and any
arguments. -/
inductive Step : State → State → Prop where
  | create {s s1 : State} {caller : Addr} {n : String} {d p t r : Nat} :
      createEvent s caller n d p t r = Except.ok (s1, ()) → Step s s1
  | book {s s1 : State} {caller eventId : Nat} :
      bookTicket s caller eventId = Except.ok (s1, ()) → Step s s1
  | cancel {s s1 : State} {caller now ticketId : Nat} :
      cancelBooking s caller now ticketId = Except.ok (s1, ()) → Step s s1
  | withdraw {s s1 : State} {caller : Addr} :
      withdrawFunds s caller = Except.ok (s1, ()) → Step s s1

/-- A freshly deployed ledger: admin `1`, contract address `2`, no events,
no tickets, no token balances. -/
def sEmpty : State where
  owner := 1
  self := 2
  eventIdCounter := 0
  ticketIdCounter := 0
  events := fun _ => Event.zero
  tickets := fun _ => Ticket.zero
  ownerBookings := fun _ => []
  owners := fun _ => none
  balances := fun _ => 0
  allowances := fun _ _ => 0

/-- One event (id 1, price 50, capacity 2, date 10, deadline 20), one sold
ticket (id 1) held by buyer `3`, custody balance 50. -/
def sTicketed : State where
  owner := 1
  self := 2
  eventIdCounter := 1
  ticketIdCounter := 1
  events := mapSet (fun _ => Event.zero) 1
    { name := "E", date := 10, price := 50, totalTickets := 2,
      soldTickets := 1, refundDeadline := 20 }
  tickets := mapSet (fun _ => Ticket.zero) 1
    { eventId := 1, owner := 3, isCancelled := false }
  ownerBookings := mapSet (fun _ => []) 3 [1]
  owners := mapSet (fun _ => none) 1 (some 3)
  balances := mapSet (fun _ => 0) 2 50
  allowances := fun _ _ => 0

/-- `sTicketed` with the custody balance drained to 0: the refund push must
fail. -/
def sNoCustody : State := { sTicketed with balances := fun _ => 0 }

/-- `sTicketed` whose event is sold out (`soldTickets = totalTickets`). -/
def sSoldOut : State :=
  { sTicketed with
    events := mapSet (fun _ => Event.zero) 1
      { name := "E", date := 10, price := 50, totalTickets := 2,
        soldTickets := 2, refundDeadline := 20 } }

/-- `sTicketed` where buyer `3` holds 60 tokens and has authorized the
ledger for 50, so a second booking can succeed. -/
def sFunded : State :=
  { sTicketed with
    balances := mapSet (mapSet (fun _ => 0) 2 50) 3 60,
    allowances := fun o sp => if o = 3 ∧ sp = 2 then 50 else 0 }

/-- A ledger whose custody holds 100 tokens (for withdrawal). -/
def sCustody : State := { sEmpty with balances := mapSet (fun _ => 0) 2 100 }

/-! ## Basic lemmas about the mapping and balance helpers -/

theorem mapSet_same {α : Type} (f : Nat → α) (k : Nat) (v : α) :
    mapSet f k v k = v := by
  simp [mapSet]

theorem mapSet_other {α : Type} (f : Nat → α) (k : Nat) (v : α) {x : Nat}
    (h : x ≠ k) : mapSet f k v x = f x := by
  simp [mapSet, h]

theorem moveBal_src (b : Addr → Nat) {f t : Nat} (amt : Nat) (h : f ≠ t) :
    moveBal b f t amt f = b f - amt := by
  simp [moveBal, mapSet, h, Ne.symm h]

theorem moveBal_dst (b : Addr → Nat) {f t : Nat} (amt : Nat) (h : t ≠ f) :
    moveBal b f t amt t = b t + amt := by
  simp [moveBal, mapSet, h]

theorem moveBal_other (b : Addr → Nat) {f t x : Nat} (amt : Nat)
    (h1 : x ≠ f) (h2 : x ≠ t) : moveBal b f t amt x = b x := by
  simp [moveBal, mapSet, h1, h2]

/-! ## Success-path characterizations of the collaborator primitives -/

theorem transfer_ok {s s1 : State} {f t amt : Nat}
    (h : transfer s f t amt = some s1) :
    s1 = { s with balances := moveBal s.balances f t amt } ∧
    f ≠ 0 ∧ t ≠ 0 ∧ amt ≤ s.balances f := by
  by_cases h0 : f = 0 ∨ t = 0
  · simp [transfer, h0] at h
  · by_cases hb : amt ≤ s.balances f
    · simp only [transfer, if_neg h0, if_pos hb, Option.some.injEq] at h
      exact ⟨h.symm, fun hf => h0 (Or.inl hf), fun ht => h0 (Or.inr ht), hb⟩
    · simp [transfer, h0, hb] at h

theorem transfer_some (s : State) {f t : Nat} (amt : Nat)
    (hf : f ≠ 0) (ht : t ≠ 0) (hb : amt ≤ s.balances f) :
    transfer s f t amt = some { s with balances := moveBal s.balances f t amt } := by
  simp [transfer, hf, ht, hb]

theorem transferFrom_ok {s s1 : State} {sp f t amt : Nat}
    (h : transferFrom s sp f t amt = some s1) :
    s1 = { s with
      balances := moveBal s.balances f t amt,
      allowances := allowSet s.allowances f sp (s.allowances f sp - amt) } ∧
    amt ≤ s.allowances f sp ∧ f ≠ 0 ∧ t ≠ 0 ∧ amt ≤ s.balances f := by
  by_cases ha : amt ≤ s.allowances f sp
  · simp only [transferFrom, if_pos ha] at h
    cases htr : transfer s f t amt with
    | none => rw [htr] at h; cases h
    | some s0 =>
      rw [htr] at h
      obtain ⟨hs0, hf, ht, hb⟩ := transfer_ok htr
      subst hs0
      simp only [Option.some.injEq] at h
      exact ⟨h.symm, ha, hf, ht, hb⟩
  · simp [transferFrom, ha] at h

theorem transferFrom_some (s : State) {sp f t amt : Nat}
    (ha : amt ≤ s.allowances f sp) (hf : f ≠ 0) (ht : t ≠ 0)
    (hb : amt ≤ s.balances f) :
    transferFrom s sp f t amt = some { s with
      balances := moveBal s.balances f t amt,
      allowances := allowSet s.allowances f sp (s.allowances f sp - amt) } := by
  simp [transferFrom, ha, transfer_some s amt hf ht hb]

theorem safeMint_ok {s s1 : State} {dst id : Nat}
    (h : safeMint s dst id = some s1) :
    s1 = { s with owners := mapSet s.owners id (some dst) } ∧
    dst ≠ 0 ∧ s.owners id = none := by
  by_cases h0 : dst = 0
  · simp [safeMint, h0] at h
  · simp only [safeMint, if_neg h0] at h
    cases ho : s.owners id with
    | some a => rw [ho] at h; cases h
    | none =>
      rw [ho] at h
      simp only [Option.some.injEq] at h
      exact ⟨h.symm, h0, rfl⟩

theorem burn_ok {s s1 : State} {id : Nat} (h : burn s id = some s1) :
    s1 = { s with owners := mapSet s.owners id none } ∧
    ∃ a, s.owners id = some a := by
  cases ho : s.owners id with
  | none => simp [burn, ho] at h
  | some a =>
    simp only [burn, ho, Option.some.injEq] at h
    exact ⟨h.symm, a, rfl⟩

/-! ## Success-path characterizations of the ledger operations -/

theorem createEvent_ok {s s1 : State} {caller : Addr} {n : String}
    {d p t r : Nat} (h : createEvent s caller n d p t r = Except.ok (s1, ())) :
    caller = s.owner ∧
    s1 = { s with
      eventIdCounter := s.eventIdCounter + 1,
      events := mapSet s.events (s.eventIdCounter + 1)
        { name := n, date := d, price := p, totalTickets := t,
          soldTickets := 0, refundDeadline := r } } := by
  by_cases hc : caller = s.owner
  · simp only [createEvent, if_pos hc, Except.ok.injEq, Prod.mk.injEq,
      and_true] at h
    exact ⟨hc, h.symm⟩
  · simp [createEvent, hc] at h

theorem withdrawFunds_ok {s s1 : State} {caller : Addr}
    (h : withdrawFunds s caller = Except.ok (s1, ())) :
    caller = s.owner ∧ 0 < s.balances s.self ∧ s.self ≠ 0 ∧ s.owner ≠ 0 ∧
    s1 = { s with
      balances := moveBal s.balances s.self s.owner (s.balances s.self) } := by
  by_cases hc : caller = s.owner
  · by_cases hb : 0 < s.balances s.self
    · simp only [withdrawFunds, if_pos hc, if_pos hb] at h
      cases htr : transfer s s.self s.owner (s.balances s.self) with
      | none => rw [htr] at h; cases h
      | some s0 =>
        rw [htr] at h
        obtain ⟨hs0, hf, ht, _⟩ := transfer_ok htr
        simp only [Except.ok.injEq, Prod.mk.injEq, and_true] at h
        subst h
        exact ⟨hc, hb, hf, ht, hs0⟩
    · simp [withdrawFunds, hc, hb] at h
  · simp [withdrawFunds, hc] at h

theorem bookTicket_ok {s s1 : State} {caller eventId : Nat}
    (h : bookTicket s caller eventId = Except.ok (s1, ())) :
    (0 < eventId ∧ eventId ≤ s.eventIdCounter) ∧
    (s.events eventId).soldTickets < (s.events eventId).totalTickets ∧
    (s.events eventId).price ≤ s.allowances caller s.self ∧
    caller ≠ 0 ∧ s.self ≠ 0 ∧
    (s.events eventId).price ≤ s.balances caller ∧
    s.owners (s.ticketIdCounter + 1) = none ∧
    s1 = { s with
      balances := moveBal s.balances caller s.self (s.events eventId).price,
      allowances := allowSet s.allowances caller s.self
        (s.allowances caller s.self - (s.events eventId).price),
      events := mapSet s.events eventId
        { s.events eventId with
          soldTickets := (s.events eventId).soldTickets + 1 },
      ticketIdCounter := s.ticketIdCounter + 1,
      tickets := mapSet s.tickets (s.ticketIdCounter + 1)
        { eventId := eventId, owner := caller, isCancelled := false },
      ownerBookings := mapSet s.ownerBookings caller
        (s.ownerBookings caller ++ [s.ticketIdCounter + 1]),
      owners := mapSet s.owners (s.ticketIdCounter + 1) (some caller) } := by
  by_cases hr : 0 < eventId ∧ eventId ≤ s.eventIdCounter
  · by_cases hcap : (s.events eventId).soldTickets < (s.events eventId).totalTickets
    · simp only [bookTicket, if_pos hr, if_pos hcap] at h
      cases htr : transferFrom s s.self caller s.self (s.events eventId).price with
      | none => rw [htr] at h; cases h
      | some s0 =>
        rw [htr] at h
        obtain ⟨hs0, ha, hcne, hsne, hb⟩ := transferFrom_ok htr
        subst hs0
        dsimp only at h
        cases hm : safeMint
            { s with
              balances := moveBal s.balances caller s.self (s.events eventId).price,
              allowances := allowSet s.allowances caller s.self
                (s.allowances caller s.self - (s.events eventId).price),
              events := mapSet s.events eventId
                { s.events eventId with
                  soldTickets := (s.events eventId).soldTickets + 1 },
              ticketIdCounter := s.ticketIdCounter + 1,
              tickets := mapSet s.tickets (s.ticketIdCounter + 1)
                { eventId := eventId, owner := caller, isCancelled := false },
              ownerBookings := mapSet s.ownerBookings caller
                (s.ownerBookings caller ++ [s.ticketIdCounter + 1]) }
            caller (s.ticketIdCounter + 1) with
        | none => rw [hm] at h; cases h
        | some s3 =>
          rw [hm] at h
          simp only [Except.ok.injEq, Prod.mk.injEq, and_true] at h
          subst h
          obtain ⟨hs3, hc0, hown⟩ := safeMint_ok hm
          subst hs3
          refine ⟨hr, hcap, ha, hcne, hsne, hb, ?_, rfl⟩
          simpa using hown
    · simp [bookTicket, hr, hcap] at h
  · simp [bookTicket, hr] at h

theorem cancelBooking_ok {s s1 : State} {caller now ticketId : Nat}
    (h : cancelBooking s caller now ticketId = Except.ok (s1, ())) :
    s.owners ticketId = some caller ∧
    (s.tickets ticketId).isCancelled = false ∧
    (0 < refundAmount s now ticketId →
      s.self ≠ 0 ∧ caller ≠ 0 ∧
      refundAmount s now ticketId ≤ s.balances s.self) ∧
    s1 = { s with
      balances := if 0 < refundAmount s now ticketId then
          moveBal s.balances s.self caller (refundAmount s now ticketId)
        else s.balances,
      tickets := mapSet s.tickets ticketId
        { s.tickets ticketId with isCancelled := true },
      owners := mapSet s.owners ticketId none } := by
  by_cases hown : ticketOwnerOf s ticketId = caller
  · by_cases hcan : (s.tickets ticketId).isCancelled
    · simp [cancelBooking, hown, hcan] at h
    · by_cases hamt : 0 < refundAmount s now ticketId
      · simp only [cancelBooking, if_pos hown, hcan, if_neg, if_pos hamt,
          Bool.false_eq_true, if_false] at h
        cases htr : transfer s s.self caller (refundAmount s now ticketId) with
        | none => rw [htr] at h; cases h
        | some s0 =>
          rw [htr] at h
          obtain ⟨hs0, hf, ht, hb⟩ := transfer_ok htr
          subst hs0
          dsimp only at h
          cases hbu : burn
              { s with
                balances := moveBal s.balances s.self caller
                  (refundAmount s now ticketId),
                tickets := mapSet s.tickets ticketId
                  { s.tickets ticketId with isCancelled := true } }
              ticketId with
          | none => rw [hbu] at h; cases h
          | some s3 =>
            rw [hbu] at h
            simp only [Except.ok.injEq, Prod.mk.injEq, and_true] at h
            subst h
            obtain ⟨hs3, a, hsome⟩ := burn_ok hbu
            subst hs3
            have hmem : s.owners ticketId = some a := by simpa using hsome
            have hac : a = caller := by
              have := hown
              rw [ticketOwnerOf, ownerOf, hmem] at this
              simpa using this
            subst hac
            refine ⟨hmem, by simpa using hcan, fun _ => ⟨hf, ht, hb⟩, ?_⟩
            simp [if_pos hamt]
      · simp only [cancelBooking, if_pos hown, hcan, Bool.false_eq_true,
          if_false, if_neg hamt] at h
        cases hbu : burn
            { s with
              tickets := mapSet s.tickets ticketId
                { s.tickets ticketId with isCancelled := true } }
            ticketId with
        | none => rw [hbu] at h; cases h
        | some s3 =>
          rw [hbu] at h
          simp only [Except.ok.injEq, Prod.mk.injEq, and_true] at h
          subst h
          obtain ⟨hs3, a, hsome⟩ := burn_ok hbu
          subst hs3
          have hmem : s.owners ticketId = some a := by simpa using hsome
          have hac : a = caller := by
            have := hown
            rw [ticketOwnerOf, ownerOf, hmem] at this
            simpa using this
          subst hac
          refine ⟨hmem, by simpa using hcan, fun hp => absurd hp hamt, ?_⟩
          simp [if_neg hamt]
  · simp [cancelBooking, hown] at h

/-! ## The claims -/

/-- C1: after every successful mutating operation (createEvent, bookTicket,
cancelBooking, withdrawFunds) on a state satisfying the capacity invariant,
`soldTickets(e) <= totalTickets(e)` still holds for every event, and every
event's `soldTickets` is monotonically non-decreasing — in particular a
successful cancelBooking never decreases any event's sold count (it leaves
`events` untouched). -/
theorem sold_le_total_monotone (s s1 : State) (hstep : Step s s1)
    (hinv : SoldLeTotal s) (hfresh : FreshSoldZero s) :
    SoldLeTotal s1 ∧ FreshSoldZero s1 ∧
    ∀ e, (s.events e).soldTickets ≤ (s1.events e).soldTickets := by
  cases hstep with
  | create h =>
    obtain ⟨-, hs1⟩ := createEvent_ok h
    subst hs1
    refine ⟨?_, ?_, ?_⟩
    · intro e
      by_cases he : e = s.eventIdCounter + 1
      · subst he; simp [SoldLeTotal, mapSet]
      · simpa [SoldLeTotal, mapSet_other _ _ _ he] using hinv e
    · intro e he
      simp only at he
      have hne : e ≠ s.eventIdCounter + 1 := by omega
      simp only [mapSet_other _ _ _ hne]
      exact hfresh e (by omega)
    · intro e
      by_cases he : e = s.eventIdCounter + 1
      · subst he
        simp only [mapSet_same]
        rw [hfresh _ (by omega)]
      · simp only [mapSet_other _ _ _ he]
        exact Nat.le_refl _
  | book h =>
    obtain ⟨hr, hcap, -, -, -, -, -, hs1⟩ := bookTicket_ok h
    subst hs1
    rename_i caller eventId
    refine ⟨?_, ?_, ?_⟩
    · intro e
      by_cases he : e = eventId
      · subst he
        simp only [mapSet_same]
        omega
      · simpa [SoldLeTotal, mapSet_other _ _ _ he] using hinv e
    · intro e he
      simp only at he
      have hne : e ≠ eventId := by omega
      simp only [mapSet_other _ _ _ hne]
      exact hfresh e he
    · intro e
      by_cases he : e = eventId
      · subst he
        simp only [mapSet_same]
        omega
      · simp only [mapSet_other _ _ _ he]
        exact Nat.le_refl _
  | cancel h =>
    obtain ⟨-, -, -, hs1⟩ := cancelBooking_ok h
    subst hs1
    exact ⟨fun e => hinv e, fun e he => hfresh e he, fun e => Nat.le_refl _⟩
  | withdraw h =>
    obtain ⟨-, -, -, -, hs1⟩ := withdrawFunds_ok h
    subst hs1
    exact ⟨fun e => hinv e, fun e he => hfresh e he, fun e => Nat.le_refl _⟩

/-- Witness for C1: one concrete step (the admin creating an event on a
fresh ledger) with the hypotheses discharged by computation. -/
theorem sold_le_total_monotone_witness :
    SoldLeTotal (createEventTx sEmpty 1 "A" 10 50 2 20) ∧
    FreshSoldZero (createEventTx sEmpty 1 "A" 10 50 2 20) ∧
    ∀ e, (sEmpty.events e).soldTickets ≤
      ((createEventTx sEmpty 1 "A" 10 50 2 20).events e).soldTickets :=
  sold_le_total_monotone sEmpty (createEventTx sEmpty 1 "A" 10 50 2 20)
    (Step.create (show createEvent sEmpty 1 "A" 10 50 2 20 =
      Except.ok (createEventTx sEmpty 1 "A" 10 50 2 20, ()) from rfl))
    (fun _ => Nat.le_refl 0) (fun _ _ => rfl)

/-- C2: bookTicket checks its preconditions in order with first failure
winning — an eventId outside `[1, eventIdCounter]` yields `NotFound`;
otherwise a full event (`soldTickets == totalTickets`) yields `SoldOut`;
otherwise a rejected payment pull yields `PaymentFailed`; and any failing
call leaves the transaction-level state (hence the sold count, both
counters, the ticket store and the purchaser index) unchanged. -/
theorem bookTicket_precondition_order (s : State) (caller eventId : Nat) :
    (¬ (0 < eventId ∧ eventId ≤ s.eventIdCounter) →
      bookTicket s caller eventId = Except.error LedgerError.NotFound) ∧
    ((0 < eventId ∧ eventId ≤ s.eventIdCounter) →
      (s.events eventId).soldTickets = (s.events eventId).totalTickets →
      bookTicket s caller eventId = Except.error LedgerError.SoldOut) ∧
    ((0 < eventId ∧ eventId ≤ s.eventIdCounter) →
      (s.events eventId).soldTickets < (s.events eventId).totalTickets →
      transferFrom s s.self caller s.self (s.events eventId).price = none →
      bookTicket s caller eventId = Except.error LedgerError.PaymentFailed) ∧
    (∀ err, bookTicket s caller eventId = Except.error err →
      bookTicketTx s caller eventId = s) := by
  refine ⟨?_, ?_, ?_, ?_⟩
  · intro hr
    simp [bookTicket, hr]
  · intro hr heq
    have hncap : ¬ (s.events eventId).soldTickets < (s.events eventId).totalTickets := by
      omega
    simp [bookTicket, hr, hncap]
  · intro hr hcap htr
    simp [bookTicket, hr, hcap, htr]
  · intro err herr
    simp [bookTicketTx, herr]

/-- Witness for C2: on concrete states, booking an out-of-range id fails
`NotFound`, booking a sold-out event fails `SoldOut`, booking without any
token allowance fails `PaymentFailed`, and the failing transaction leaves
the state unchanged. -/
theorem bookTicket_precondition_order_witness :
    bookTicket sEmpty 3 7 = Except.error LedgerError.NotFound ∧
    bookTicket sSoldOut 3 1 = Except.error LedgerError.SoldOut ∧
    bookTicket sTicketed 3 1 = Except.error LedgerError.PaymentFailed ∧
    bookTicketTx sTicketed 3 1 = sTicketed := by
  refine ⟨(bookTicket_precondition_order sEmpty 3 7).1 (by decide),
    (bookTicket_precondition_order sSoldOut 3 1).2.1 (by decide) (by decide),
    (bookTicket_precondition_order sTicketed 3 1).2.2.1 (by decide) (by decide) rfl,
    (bookTicket_precondition_order sTicketed 3 1).2.2.2 LedgerError.PaymentFailed
      ((bookTicket_precondition_order sTicketed 3 1).2.2.1 (by decide) (by decide) rfl)⟩

/-- C3: a successful cancelBooking refunds the caller exactly `price` when
`now` is strictly before the owning event's `refundDeadline`, and exactly
`price / 2` (Nat division, remainder forfeited) at or after it. -/
theorem cancelBooking_refund_amount (s s1 : State) (caller now ticketId : Nat)
    (h : cancelBooking s caller now ticketId = Except.ok (s1, ()))
    (hcs : caller ≠ s.self) :
    s1.balances caller = s.balances caller +
      (if now < (s.events (s.tickets ticketId).eventId).refundDeadline then
        (s.events (s.tickets ticketId).eventId).price
      else (s.events (s.tickets ticketId).eventId).price / 2) := by
  obtain ⟨-, -, -, hs1⟩ := cancelBooking_ok h
  subst hs1
  simp only
  by_cases hamt : 0 < refundAmount s now ticketId
  · rw [if_pos hamt, moveBal_dst s.balances (refundAmount s now ticketId) hcs]
    rfl
  · rw [if_neg hamt]
    have h0 : refundAmount s now ticketId = 0 := by omega
    have : (if now < (s.events (s.tickets ticketId).eventId).refundDeadline then
        (s.events (s.tickets ticketId).eventId).price
      else (s.events (s.tickets ticketId).eventId).price / 2) = 0 := h0
    omega

/-- Witness for C3: buyer `3` cancels ticket 1 of `sTicketed` at time 5,
before the deadline 20, and is refunded the full price 50. -/
theorem cancelBooking_refund_amount_witness :
    (cancelBookingTx sTicketed 3 5 1).balances 3 = sTicketed.balances 3 +
      (if 5 < (sTicketed.events (sTicketed.tickets 1).eventId).refundDeadline then
        (sTicketed.events (sTicketed.tickets 1).eventId).price
      else (sTicketed.events (sTicketed.tickets 1).eventId).price / 2) :=
  cancelBooking_refund_amount sTicketed (cancelBookingTx sTicketed 3 5 1) 3 5 1
    rfl (by decide)

/-- C4 counterexample: on a concrete ledger, buyer `3` cancels ticket 1,
which succeeds, marks the ticket cancelled and burns the asset; the second
cancelBooking on the same ticket id then fails with `NotOwner` — not with
`AlreadyCancelled` as the claim states — because the live-holder check of
`_ticketOwnerOf` runs first and the burned asset has no holder. -/
theorem cancelBooking_second_fails_NotOwner :
    cancelBooking sTicketed 3 5 1 =
      Except.ok (cancelBookingTx sTicketed 3 5 1, ()) ∧
    (cancelBookingTx sTicketed 3 5 1).tickets 1 =
      { eventId := 1, owner := 3, isCancelled := true } ∧
    cancelBooking (cancelBookingTx sTicketed 3 5 1) 3 6 1 =
      Except.error LedgerError.NotOwner ∧
    cancelBooking (cancelBookingTx sTicketed 3 5 1) 3 6 1 ≠
      Except.error LedgerError.AlreadyCancelled := by
  refine ⟨rfl, rfl, rfl, ?_⟩
  intro hc
  have h2 : Except.error (α := State × Unit) LedgerError.NotOwner =
      Except.error LedgerError.AlreadyCancelled :=
    (show cancelBooking (cancelBookingTx sTicketed 3 5 1) 3 6 1 =
      Except.error LedgerError.NotOwner from rfl).symm.trans hc
  simp at h2

/-- C4 (amended): after any successful cancelBooking, a second
cancelBooking on the same ticket id by any nonzero caller fails — with
`NotOwner`, since the burn left the asset with no live holder and that
check runs before the `AlreadyCancelled` check — and, the call failing, no
second refund is paid out. -/
theorem cancelBooking_no_double_refund (s s1 : State)
    (caller now caller2 now2 ticketId : Nat)
    (h : cancelBooking s caller now ticketId = Except.ok (s1, ()))
    (h2 : caller2 ≠ 0) :
    cancelBooking s1 caller2 now2 ticketId = Except.error LedgerError.NotOwner ∧
    cancelBookingTx s1 caller2 now2 ticketId = s1 := by
  obtain ⟨-, -, -, hs1⟩ := cancelBooking_ok h
  subst hs1
  have howner : ticketOwnerOf
      { s with
        balances := if 0 < refundAmount s now ticketId then
            moveBal s.balances s.self caller (refundAmount s now ticketId)
          else s.balances,
        tickets := mapSet s.tickets ticketId
          { s.tickets ticketId with isCancelled := true },
        owners := mapSet s.owners ticketId none } ticketId = 0 := by
    simp [ticketOwnerOf, ownerOf, mapSet_same]
  constructor
  · simp [cancelBooking, howner, Ne.symm h2]
  · simp [cancelBookingTx, cancelBooking, howner, Ne.symm h2]

/-- Witness for C4's amended theorem: the concrete double cancellation on
`sTicketed` fails with `NotOwner` and changes nothing. -/
theorem cancelBooking_no_double_refund_witness :
    cancelBooking (cancelBookingTx sTicketed 3 5 1) 3 6 1 =
      Except.error LedgerError.NotOwner ∧
    cancelBookingTx (cancelBookingTx sTicketed 3 5 1) 3 6 1 =
      cancelBookingTx sTicketed 3 5 1 :=
  cancelBooking_no_double_refund sTicketed (cancelBookingTx sTicketed 3 5 1)
    3 5 3 6 1 rfl (by decide)

/-- C5: when the preconditions of cancelBooking hold but the payment-token
collaborator rejects the (positive) refund push, the whole cancellation
fails with `PaymentFailed` and the transaction leaves the state unchanged:
the ticket's `isCancelled` flag stays false and the asset is not burned. -/
theorem cancelBooking_atomic_on_refund_failure (s : State)
    (caller now ticketId : Nat)
    (hown : ticketOwnerOf s ticketId = caller)
    (hnc : (s.tickets ticketId).isCancelled = false)
    (hpos : 0 < refundAmount s now ticketId)
    (htr : transfer s s.self caller (refundAmount s now ticketId) = none) :
    cancelBooking s caller now ticketId = Except.error LedgerError.PaymentFailed ∧
    cancelBookingTx s caller now ticketId = s ∧
    (cancelBookingTx s caller now ticketId).tickets ticketId =
      s.tickets ticketId ∧
    (cancelBookingTx s caller now ticketId).owners ticketId =
      s.owners ticketId := by
  have herr : cancelBooking s caller now ticketId =
      Except.error LedgerError.PaymentFailed := by
    simp [cancelBooking, hown, hnc, hpos, htr]
  have htx : cancelBookingTx s caller now ticketId = s := by
    simp [cancelBookingTx, herr]
  exact ⟨herr, htx, by rw [htx], by rw [htx]⟩

/-- Witness for C5: on `sNoCustody` (ticket 1 live, held by `3`, but zero
custody balance) the refund push is rejected and cancellation fails with
`PaymentFailed`, leaving the state unchanged. -/
theorem cancelBooking_atomic_on_refund_failure_witness :
    cancelBooking sNoCustody 3 5 1 = Except.error LedgerError.PaymentFailed ∧
    cancelBookingTx sNoCustody 3 5 1 = sNoCustody ∧
    (cancelBookingTx sNoCustody 3 5 1).tickets 1 = sNoCustody.tickets 1 ∧
    (cancelBookingTx sNoCustody 3 5 1).owners 1 = sNoCustody.owners 1 :=
  cancelBooking_atomic_on_refund_failure sNoCustody 3 5 1 rfl rfl
    (by decide) rfl

/-- C6: withdrawFunds fails with `Unauthorized` for any non-administrator;
called by the administrator it fails with `NothingToWithdraw` on a zero
custody balance, and on a positive custody balance it transfers the ledger's
entire payment-token balance to the administrator, leaving custody at zero
(under the deployment facts that the admin and contract addresses are
nonzero and distinct). -/
theorem withdrawFunds_spec (s : State) (caller : Nat) :
    (caller ≠ s.owner →
      withdrawFunds s caller = Except.error LedgerError.Unauthorized) ∧
    (s.balances s.self = 0 →
      withdrawFunds s s.owner = Except.error LedgerError.NothingToWithdraw) ∧
    (0 < s.balances s.self → s.self ≠ 0 → s.owner ≠ 0 → s.owner ≠ s.self →
      withdrawFunds s s.owner = Except.ok (withdrawFundsTx s s.owner, ()) ∧
      (withdrawFundsTx s s.owner).balances s.self = 0 ∧
      (withdrawFundsTx s s.owner).balances s.owner =
        s.balances s.owner + s.balances s.self) := by
  refine ⟨?_, ?_, ?_⟩
  · intro hc
    simp [withdrawFunds, hc]
  · intro hb
    simp [withdrawFunds, hb]
  · intro hb hself howner hneq
    have hok : withdrawFunds s s.owner = Except.ok
        ({ s with balances :=
            moveBal s.balances s.self s.owner (s.balances s.self) }, ()) := by
      simp [withdrawFunds, hb,
        transfer_some s (s.balances s.self) hself howner (Nat.le_refl _)]
    have htx : withdrawFundsTx s s.owner =
        { s with balances :=
            moveBal s.balances s.self s.owner (s.balances s.self) } := by
      simp [withdrawFundsTx, hok]
    refine ⟨by rw [hok, htx], ?_, ?_⟩
    · rw [htx]
      have := moveBal_src s.balances (s.balances s.self) (Ne.symm hneq)
      simpa using this
    · rw [htx]
      have := moveBal_dst s.balances (s.balances s.self) hneq
      simpa using this

/-- Witness for C6: a stranger's withdrawal fails `Unauthorized` on
`sEmpty`; the admin's withdrawal fails `NothingToWithdraw` on the empty
custody of `sEmpty` and, on `sCustody` (custody 100), moves the full 100 to
the admin leaving custody zero. -/
theorem withdrawFunds_spec_witness :
    withdrawFunds sEmpty 3 = Except.error LedgerError.Unauthorized ∧
    withdrawFunds sEmpty 1 = Except.error LedgerError.NothingToWithdraw ∧
    withdrawFunds sCustody 1 = Except.ok (withdrawFundsTx sCustody 1, ()) ∧
    (withdrawFundsTx sCustody 1).balances 2 = 0 ∧
    (withdrawFundsTx sCustody 1).balances 1 = 100 := by
  have h3 := (withdrawFunds_spec sCustody 1).2.2 (by decide) (by decide)
    (by decide) (by decide)
  exact ⟨(withdrawFunds_spec sEmpty 3).1 (by decide),
    (withdrawFunds_spec sEmpty 1).2.1 rfl,
    h3.1, h3.2.1, h3.2.2.trans rfl⟩

/-- C7 counterexample: the claim that createEvent "returns the new event id
to the caller" is false — the Solidity function is declared without a
return value, so the only value a caller receives is `()`, and no fixed
reading of `()` can yield the new event id: two concrete successful calls
produce different new ids from the same returned value. -/
theorem createEvent_returns_no_id :
    ¬ ∃ f : Unit → Nat,
      ∀ (s s1 : State) (c : Addr) (n : String) (d p t r : Nat) (u : Unit),
        createEvent s c n d p t r = Except.ok (s1, u) →
        f u = s1.eventIdCounter := by
  rintro ⟨f, hf⟩
  have h1 := hf sEmpty (createEventTx sEmpty 1 "A" 0 0 0 0) 1 "A" 0 0 0 0 () rfl
  have h2 := hf (createEventTx sEmpty 1 "A" 0 0 0 0)
    (createEventTx (createEventTx sEmpty 1 "A" 0 0 0 0) 1 "A" 0 0 0 0)
    1 "A" 0 0 0 0 () rfl
  have e1 : (createEventTx sEmpty 1 "A" 0 0 0 0).eventIdCounter = 1 := rfl
  have e2 : (createEventTx (createEventTx sEmpty 1 "A" 0 0 0 0)
      1 "A" 0 0 0 0).eventIdCounter = 2 := rfl
  rw [e1] at h1
  rw [e2] at h2
  omega

/-- C7 (amended): every successful createEvent call allocates the next
sequential event id (previous `eventIdCounter + 1`) and stores the Event
record with `soldTickets = 0`, but returns nothing to the caller (the
function is void; the new id is observable only as the updated
`eventIdCounter`). -/
theorem createEvent_allocates_next_id (s s1 : State) (c : Addr) (n : String)
    (d p t r : Nat) (u : Unit)
    (h : createEvent s c n d p t r = Except.ok (s1, u)) :
    s1.eventIdCounter = s.eventIdCounter + 1 ∧
    s1.events (s.eventIdCounter + 1) =
      { name := n, date := d, price := p, totalTickets := t,
        soldTickets := 0, refundDeadline := r } ∧
    u = () := by
  obtain ⟨-, hs1⟩ := createEvent_ok h
  subst hs1
  exact ⟨rfl, mapSet_same _ _ _, rfl⟩

/-- Witness for C7's amended theorem: the admin's concrete createEvent on
the fresh ledger bumps the counter to 1 and stores the record. -/
theorem createEvent_allocates_next_id_witness :
    (createEventTx sEmpty 1 "A" 10 50 2 20).eventIdCounter =
      sEmpty.eventIdCounter + 1 ∧
    (createEventTx sEmpty 1 "A" 10 50 2 20).events (sEmpty.eventIdCounter + 1) =
      { name := "A", date := 10, price := 50, totalTickets := 2,
        soldTickets := 0, refundDeadline := 20 } ∧
    () = () :=
  createEvent_allocates_next_id sEmpty (createEventTx sEmpty 1 "A" 10 50 2 20)
    1 "A" 10 50 2 20 () rfl

/-- C8: getEventDetails performs no existence check — it always returns the
stored record verbatim, and on a ledger whose unwritten event slots are
still at their defaults (true of every reachable state) any id outside
`[1, eventIdCounter]` yields the all-default/zero record rather than an
error. -/
theorem getEventDetails_spec (s : State) (eventId : Nat) (hwf : EventsWF s) :
    getEventDetails s eventId = s.events eventId ∧
    (¬ (1 ≤ eventId ∧ eventId ≤ s.eventIdCounter) →
      getEventDetails s eventId =
        { name := "", date := 0, price := 0, totalTickets := 0,
          soldTickets := 0, refundDeadline := 0 }) := by
  refine ⟨rfl, fun hr => ?_⟩
  have : eventId = 0 ∨ s.eventIdCounter < eventId := by omega
  rw [getEventDetails, hwf eventId this]
  rfl

/-- Witness for C8: on `sTicketed` (one event, counter 1) the out-of-range
id 5 yields the all-zero record. -/
theorem getEventDetails_spec_witness :
    getEventDetails sTicketed 5 = sTicketed.events 5 ∧
    (¬ (1 ≤ 5 ∧ 5 ≤ sTicketed.eventIdCounter) →
      getEventDetails sTicketed 5 =
        { name := "", date := 0, price := 0, totalTickets := 0,
          soldTickets := 0, refundDeadline := 0 }) :=
  getEventDetails_spec sTicketed 5
    (fun e he => by
      have hne : e ≠ 1 := by
        rcases he with h0 | h1
        · omega
        · simp only [sTicketed] at h1; omega
      simp [sTicketed, mapSet_other _ _ _ hne])

/-- C9: a successful cancelBooking changes only the cancelled ticket's
`isCancelled` flag, the registry entry of that ticket (burned) and the
custody/caller token balances of the refund; every event record (hence
every sold count), every other ticket, the cancelled ticket's `eventId` and
purchaser fields, every purchaser-index entry, both counters, and every
unrelated token balance and allowance are unchanged. -/
theorem cancelBooking_frame (s s1 : State) (caller now ticketId : Nat)
    (h : cancelBooking s caller now ticketId = Except.ok (s1, ())) :
    s1.events = s.events ∧
    s1.eventIdCounter = s.eventIdCounter ∧
    s1.ticketIdCounter = s.ticketIdCounter ∧
    (∀ t, t ≠ ticketId → s1.tickets t = s.tickets t) ∧
    (s1.tickets ticketId).eventId = (s.tickets ticketId).eventId ∧
    (s1.tickets ticketId).owner = (s.tickets ticketId).owner ∧
    (s1.tickets ticketId).isCancelled = true ∧
    s1.ownerBookings = s.ownerBookings ∧
    s1.owner = s.owner ∧ s1.self = s.self ∧
    s1.allowances = s.allowances ∧
    (∀ a, a ≠ caller → a ≠ s.self → s1.balances a = s.balances a) ∧
    s1.owners ticketId = none ∧
    (∀ t, t ≠ ticketId → s1.owners t = s.owners t) := by
  obtain ⟨-, -, -, hs1⟩ := cancelBooking_ok h
  subst hs1
  refine ⟨rfl, rfl, rfl, ?_, ?_, ?_, ?_, rfl, rfl, rfl, rfl, ?_, ?_, ?_⟩
  · intro t ht
    exact mapSet_other _ _ _ ht
  · simp [mapSet_same]
  · simp [mapSet_same]
  · simp [mapSet_same]
  · intro a hac has
    simp only
    by_cases hamt : 0 < refundAmount s now ticketId
    · rw [if_pos hamt]
      exact moveBal_other _ _ has hac
    · rw [if_neg hamt]
  · exact mapSet_same _ _ _
  · intro t ht
    exact mapSet_other _ _ _ ht

/-- Witness for C9: the frame conditions evaluated on the concrete
cancellation of ticket 1 of `sTicketed` by buyer `3` at time 5. -/
theorem cancelBooking_frame_witness :
    (cancelBookingTx sTicketed 3 5 1).events = sTicketed.events ∧
    (cancelBookingTx sTicketed 3 5 1).eventIdCounter = sTicketed.eventIdCounter ∧
    (cancelBookingTx sTicketed 3 5 1).ticketIdCounter = sTicketed.ticketIdCounter ∧
    (∀ t, t ≠ 1 → (cancelBookingTx sTicketed 3 5 1).tickets t = sTicketed.tickets t) ∧
    ((cancelBookingTx sTicketed 3 5 1).tickets 1).eventId =
      (sTicketed.tickets 1).eventId ∧
    ((cancelBookingTx sTicketed 3 5 1).tickets 1).owner =
      (sTicketed.tickets 1).owner ∧
    ((cancelBookingTx sTicketed 3 5 1).tickets 1).isCancelled = true ∧
    (cancelBookingTx sTicketed 3 5 1).ownerBookings = sTicketed.ownerBookings ∧
    (cancelBookingTx sTicketed 3 5 1).owner = sTicketed.owner ∧
    (cancelBookingTx sTicketed 3 5 1).self = sTicketed.self ∧
    (cancelBookingTx sTicketed 3 5 1).allowances = sTicketed.allowances ∧
    (∀ a, a ≠ 3 → a ≠ sTicketed.self →
      (cancelBookingTx sTicketed 3 5 1).balances a = sTicketed.balances a) ∧
    (cancelBookingTx sTicketed 3 5 1).owners 1 = none ∧
    (∀ t, t ≠ 1 → (cancelBookingTx sTicketed 3 5 1).owners t = sTicketed.owners t) :=
  cancelBooking_frame sTicketed (cancelBookingTx sTicketed 3 5 1) 3 5 1 rfl

/-- C10: bookTicket imposes no constraint on the event's scheduled date or
refund deadline — even when both lie strictly in the past relative to any
current time `now`, booking succeeds and mints the next ticket to the
caller, provided the event id is in range, capacity remains, the payment
pull is covered (allowance and balance at least `price`), and the mint is
well-formed (nonzero addresses, fresh ticket id). -/
theorem bookTicket_ignores_event_dates (s : State) (caller eventId now : Nat)
    (hdate : (s.events eventId).date < now)
    (hdl : (s.events eventId).refundDeadline < now)
    (hr : 0 < eventId ∧ eventId ≤ s.eventIdCounter)
    (hcap : (s.events eventId).soldTickets < (s.events eventId).totalTickets)
    (hal : (s.events eventId).price ≤ s.allowances caller s.self)
    (hb : (s.events eventId).price ≤ s.balances caller)
    (hc : caller ≠ 0) (hs : s.self ≠ 0)
    (hfresh : s.owners (s.ticketIdCounter + 1) = none) :
    bookTicket s caller eventId = Except.ok (bookTicketTx s caller eventId, ()) ∧
    (bookTicketTx s caller eventId).tickets (s.ticketIdCounter + 1) =
      { eventId := eventId, owner := caller, isCancelled := false } ∧
    (bookTicketTx s caller eventId).owners (s.ticketIdCounter + 1) =
      some caller ∧
    (bookTicketTx s caller eventId).ticketIdCounter = s.ticketIdCounter + 1 := by
  have hok : bookTicket s caller eventId = Except.ok ({ s with
      balances := moveBal s.balances caller s.self (s.events eventId).price,
      allowances := allowSet s.allowances caller s.self
        (s.allowances caller s.self - (s.events eventId).price),
      events := mapSet s.events eventId
        { s.events eventId with
          soldTickets := (s.events eventId).soldTickets + 1 },
      ticketIdCounter := s.ticketIdCounter + 1,
      tickets := mapSet s.tickets (s.ticketIdCounter + 1)
        { eventId := eventId, owner := caller, isCancelled := false },
      ownerBookings := mapSet s.ownerBookings caller
        (s.ownerBookings caller ++ [s.ticketIdCounter + 1]),
      owners := mapSet s.owners (s.ticketIdCounter + 1) (some caller) }, ()) := by
    simp only [bookTicket, if_pos hr, if_pos hcap,
      transferFrom_some s hal hc hs hb]
    simp [safeMint, hc, hfresh]
  have htx : bookTicketTx s caller eventId = { s with
      balances := moveBal s.balances caller s.self (s.events eventId).price,
      allowances := allowSet s.allowances caller s.self
        (s.allowances caller s.self - (s.events eventId).price),
      events := mapSet s.events eventId
        { s.events eventId with
          soldTickets := (s.events eventId).soldTickets + 1 },
      ticketIdCounter := s.ticketIdCounter + 1,
      tickets := mapSet s.tickets (s.ticketIdCounter + 1)
        { eventId := eventId, owner := caller, isCancelled := false },
      ownerBookings := mapSet s.ownerBookings caller
        (s.ownerBookings caller ++ [s.ticketIdCounter + 1]),
      owners := mapSet s.owners (s.ticketIdCounter + 1) (some caller) } := by
    simp [bookTicketTx, hok]
  refine ⟨?_, ?_, ?_, ?_⟩
  · rw [htx]
    exact hok
  · rw [htx]
    exact mapSet_same _ _ _
  · rw [htx]
    exact mapSet_same _ _ _
  · rw [htx]

/-- Witness for C10: on `sFunded`, whose event 1 has date 10 and deadline
20 both before the current time 30, buyer `3` still books successfully and
ticket 2 is minted. -/
theorem bookTicket_ignores_event_dates_witness :
    bookTicket sFunded 3 1 = Except.ok (bookTicketTx sFunded 3 1, ()) ∧
    (bookTicketTx sFunded 3 1).tickets (sFunded.ticketIdCounter + 1) =
      { eventId := 1, owner := 3, isCancelled := false } ∧
    (bookTicketTx sFunded 3 1).owners (sFunded.ticketIdCounter + 1) = some 3 ∧
    (bookTicketTx sFunded 3 1).ticketIdCounter = sFunded.ticketIdCounter + 1 :=
  bookTicket_ignores_event_dates sFunded 3 1 30 (by decide) (by decide)
    (by decide) (by decide) (by decide) (by decide) (by decide) (by decide) rfl
